import Mathlib

/-!
Verification of the NX-Migrator-Pro partition-migration core against its
natural-language specification.  The Python sources under `src/core/` are
shallowly embedded below: pure byte-construction code becomes functions on
`List Nat` (each element a byte value), Python `int` becomes `Int` (with
Python's floor division `//` rendered as Lean's Int `/` and Python `%` as `%` (both with Euclidean semantics on positive divisors),
which agree with Python for the positive divisors used throughout), and
stateful / fallible code is modelled by explicit traces of events and
`Except`-style results.
-/

namespace NXMig

/-- Bytes are naturals; byte strings are lists of naturals. -/
abbrev Bytes := List Nat

/-- struct.pack('<I', n): 4-byte little-endian encoding (values are reduced
mod 2^32; the Python code only ever packs in-range values). -/
def le32 (n : Nat) : Bytes :=
  [n % 256, n / 256 % 256, n / 65536 % 256, n / 16777216 % 256]

/-- struct.pack('<Q', n): 8-byte little-endian encoding. -/
def le64 (n : Nat) : Bytes :=
  [n % 256, n / 256 % 256, n / 65536 % 256, n / 16777216 % 256,
   n / 4294967296 % 256, n / 1099511627776 % 256,
   n / 281474976710656 % 256, n / 72057594037927936 % 256]

/-- Little-endian packing of a Python int that is stored in an `Int`
variable (reduced into range first, as all actually packed values are
non-negative and in range). -/
def le32i (n : Int) : Bytes := le32 ((n % 4294967296).toNat)

def le64i (n : Int) : Bytes := le64 ((n % 18446744073709551616).toNat)

@[simp] theorem le32_length (n : Nat) : (le32 n).length = 4 := rfl

@[simp] theorem le64_length (n : Nat) : (le64 n).length = 8 := rfl

@[simp] theorem le32i_length (n : Int) : (le32i n).length = 4 := rfl

@[simp] theorem le64i_length (n : Int) : (le64i n).length = 8 := rfl

/-- One step of the reflected CRC-32 bit loop (polynomial 0xEDB88320),
exactly the update zlib.crc32 performs per bit. -/
def crcBit (c : Nat) : Nat :=
  if c % 2 == 1 then Nat.xor (c / 2) 0xEDB88320 else c / 2

/-- Eight bit steps for one input byte. -/
def crcByte (c b : Nat) : Nat :=
  (crcBit (crcBit (crcBit (crcBit (crcBit (crcBit (crcBit (crcBit
    (Nat.xor c b)))))))))

/-- zlib.crc32 over a byte string (initial value 0xFFFFFFFF, final
complement), as used by the partition writer. -/
def crc32 (data : Bytes) : Nat :=
  Nat.xor (data.foldl crcByte 0xFFFFFFFF) 0xFFFFFFFF

/-- Python slice assignment `l[off:off+len(v)] = v` on a bytearray (the
sources only ever assign slices whose width equals the replacement's
length, so no resizing occurs). -/
def setSlice (l : Bytes) (off : Nat) (v : Bytes) : Bytes :=
  l.take off ++ v ++ l.drop (off + v.length)

/-- Reading the slice `l[off:off+len]`. -/
def getSlice (l : Bytes) (off len : Nat) : Bytes :=
  (l.drop off).take len

/-- Partition record from `core/partition_models.py` (dataclass Partition).
Integer fields are `Int`, matching Python's unbounded ints. -/
structure Partition where
  name : String
  type_id : Int
  type_name : String
  start_sector : Int
  size_sectors : Int
  size_mb : Int
  category : String
  in_mbr : Bool := true
  in_gpt : Bool := false
  deriving Repr, DecidableEq

/-- DiskLayout from `core/partition_models.py`: partition list plus the
cached flags and per-category size sums that `add_partition` maintains. -/
structure DiskLayout where
  partitions : List Partition := []
  total_sectors : Int := 0
  has_gpt : Bool := false
  has_linux : Bool := false
  has_android : Bool := false
  has_emummc : Bool := false
  android_dynamic : Bool := false
  emummc_double : Bool := false
  fat32_size_mb : Int := 0
  linux_size_mb : Int := 0
  android_size_mb : Int := 0
  emummc_size_mb : Int := 0
  deriving Repr, DecidableEq

/-- DiskLayout.add_partition: append and update the cached flags/sums. -/
def DiskLayout.addPartition (l : DiskLayout) (p : Partition) : DiskLayout :=
  let l := { l with partitions := l.partitions ++ [p] }
  if p.category = "Linux" then
    { l with has_linux := true, linux_size_mb := l.linux_size_mb + p.size_mb }
  else if p.category = "Android" then
    { l with has_android := true,
             android_size_mb := l.android_size_mb + p.size_mb }
  else if p.category = "emuMMC" then
    { l with has_emummc := true,
             emummc_size_mb := l.emummc_size_mb + p.size_mb }
  else if p.category = "FAT32" then
    { l with fat32_size_mb := l.fat32_size_mb + p.size_mb }
  else l

/-- DiskLayout.get_android_partitions. -/
def DiskLayout.getAndroidPartitions (l : DiskLayout) : List Partition :=
  l.partitions.filter (fun p => p.category = "Android")

/-- DiskLayout.get_emummc_partitions. -/
def DiskLayout.getEmummcPartitions (l : DiskLayout) : List Partition :=
  l.partitions.filter (fun p => p.category = "emuMMC")

end NXMig

namespace NXMig

/-- Helper for evaluating `crc32` on long runs of zero bytes inside the
kernel: the state after `n` zero bytes.  Written with a bare `Nat.rec`
and an eager case split on the accumulator so that kernel reduction
forces the state to a literal at every step instead of building a deep
thunk tower. -/
def crcZerosF (n : Nat) : Nat → Nat :=
  Nat.rec (motive := fun _ => Nat → Nat) (fun c => c)
    (fun _ ih c => Nat.casesOn c (ih (crcByte 0 0)) (fun m => ih (crcByte (m+1) 0))) n

theorem crcZerosF_succ (n c : Nat) :
    crcZerosF (n + 1) c = crcZerosF n (crcByte c 0) := by
  cases c <;> rfl

theorem crcZerosF_add (m n c : Nat) :
    crcZerosF (m + n) c = crcZerosF n (crcZerosF m c) := by
  induction m generalizing c with
  | zero => rw [Nat.zero_add]; rfl
  | succ m ih =>
    have h : m + 1 + n = (m + n) + 1 := by omega
    rw [h, crcZerosF_succ, crcZerosF_succ, ih]

theorem foldl_crcByte_replicate (n : Nat) (c : Nat) :
    (List.replicate n 0).foldl crcByte c = crcZerosF n c := by
  induction n generalizing c with
  | zero => rfl
  | succ n ih =>
    rw [List.replicate_succ, List.foldl_cons, ih, crcZerosF_succ]

set_option maxRecDepth 20000 in
theorem crcZeroStep0 : crcZerosF 512 0xffffffff = 0x4d558a87 := by decide

set_option maxRecDepth 20000 in
theorem crcZeroStep1 : crcZerosF 512 0x4d558a87 = 0x104a50d1 := by decide

set_option maxRecDepth 20000 in
theorem crcZeroStep2 : crcZerosF 512 0x104a50d1 = 0x93e31e81 := by decide

set_option maxRecDepth 20000 in
theorem crcZeroStep3 : crcZerosF 512 0x93e31e81 = 0xe174561 := by decide

set_option maxRecDepth 20000 in
theorem crcZeroStep4 : crcZerosF 512 0xe174561 = 0xc8ee9b5 := by decide

set_option maxRecDepth 20000 in
theorem crcZeroStep5 : crcZerosF 512 0xc8ee9b5 = 0x9819367b := by decide

set_option maxRecDepth 20000 in
theorem crcZeroStep6 : crcZerosF 512 0x9819367b = 0xc47d7783 := by decide

set_option maxRecDepth 20000 in
theorem crcZeroStep7 : crcZerosF 512 0xc47d7783 = 0x38e3ffee := by decide

set_option maxRecDepth 20000 in
theorem crcZeroStep8 : crcZerosF 512 0x38e3ffee = 0x6af3d782 := by decide

set_option maxRecDepth 20000 in
theorem crcZeroStep9 : crcZerosF 512 0x6af3d782 = 0x94c33195 := by decide

set_option maxRecDepth 20000 in
theorem crcZeroStep10 : crcZerosF 512 0x94c33195 = 0x4625821d := by decide

set_option maxRecDepth 20000 in
theorem crcZeroStep11 : crcZerosF 512 0x4625821d = 0x35013cc0 := by decide

set_option maxRecDepth 20000 in
theorem crcZeroStep12 : crcZerosF 512 0x35013cc0 = 0xe110ef8a := by decide

set_option maxRecDepth 20000 in
theorem crcZeroStep13 : crcZerosF 512 0xe110ef8a = 0xcf6ec82b := by decide

set_option maxRecDepth 20000 in
theorem crcZeroStep14 : crcZerosF 512 0xcf6ec82b = 0x928d0f03 := by decide

set_option maxRecDepth 20000 in
theorem crcZeroStep15 : crcZerosF 512 0x928d0f03 = 0x270b666b := by decide

set_option maxRecDepth 20000 in
theorem crcZeroStep16 : crcZerosF 512 0x270b666b = 0x3a4bc226 := by decide

set_option maxRecDepth 20000 in
theorem crcZeroStep17 : crcZerosF 512 0x3a4bc226 = 0x34079eee := by decide

set_option maxRecDepth 20000 in
theorem crcZeroStep18 : crcZerosF 512 0x34079eee = 0xf1d7aa70 := by decide

set_option maxRecDepth 20000 in
theorem crcZeroStep19 : crcZerosF 512 0xf1d7aa70 = 0xd8e22165 := by decide

set_option maxRecDepth 20000 in
theorem crcZeroStep20 : crcZerosF 512 0xd8e22165 = 0xe288b0a4 := by decide

set_option maxRecDepth 20000 in
theorem crcZeroStep21 : crcZerosF 512 0xe288b0a4 = 0x1cd4c6fa := by decide

set_option maxRecDepth 20000 in
theorem crcZeroStep22 : crcZerosF 512 0x1cd4c6fa = 0x169c14c6 := by decide

set_option maxRecDepth 20000 in
theorem crcZeroStep23 : crcZerosF 512 0x169c14c6 = 0x75da7513 := by decide

set_option maxRecDepth 20000 in
theorem crcZeroStep24 : crcZerosF 512 0x75da7513 = 0x29433a45 := by decide

set_option maxRecDepth 20000 in
theorem crcZeroStep25 : crcZerosF 512 0x29433a45 = 0xc2e81776 := by decide

set_option maxRecDepth 20000 in
theorem crcZeroStep26 : crcZerosF 512 0xc2e81776 = 0x5a58a3ca := by decide

set_option maxRecDepth 20000 in
theorem crcZeroStep27 : crcZerosF 512 0x5a58a3ca = 0xf6714b3 := by decide

set_option maxRecDepth 20000 in
theorem crcZeroStep28 : crcZerosF 512 0xf6714b3 = 0xdc4a9898 := by decide

set_option maxRecDepth 20000 in
theorem crcZeroStep29 : crcZerosF 512 0xdc4a9898 = 0x633f7f01 := by decide

set_option maxRecDepth 20000 in
theorem crcZeroStep30 : crcZerosF 512 0x633f7f01 = 0xe6bcb219 := by decide

set_option maxRecDepth 20000 in
theorem crcZeroStep31 : crcZerosF 512 0xe6bcb219 = 0x54ab2d79 := by decide

theorem crcZerosAcc1 : crcZerosF 512 0xFFFFFFFF = 0x4d558a87 := crcZeroStep0

theorem crcZerosAcc2 : crcZerosF 1024 0xFFFFFFFF = 0x104a50d1 := by
  rw [show (1024 : Nat) = 512 + 512 from rfl, crcZerosF_add, crcZerosAcc1, crcZeroStep1]

theorem crcZerosAcc3 : crcZerosF 1536 0xFFFFFFFF = 0x93e31e81 := by
  rw [show (1536 : Nat) = 1024 + 512 from rfl, crcZerosF_add, crcZerosAcc2, crcZeroStep2]

theorem crcZerosAcc4 : crcZerosF 2048 0xFFFFFFFF = 0xe174561 := by
  rw [show (2048 : Nat) = 1536 + 512 from rfl, crcZerosF_add, crcZerosAcc3, crcZeroStep3]

theorem crcZerosAcc5 : crcZerosF 2560 0xFFFFFFFF = 0xc8ee9b5 := by
  rw [show (2560 : Nat) = 2048 + 512 from rfl, crcZerosF_add, crcZerosAcc4, crcZeroStep4]

theorem crcZerosAcc6 : crcZerosF 3072 0xFFFFFFFF = 0x9819367b := by
  rw [show (3072 : Nat) = 2560 + 512 from rfl, crcZerosF_add, crcZerosAcc5, crcZeroStep5]

theorem crcZerosAcc7 : crcZerosF 3584 0xFFFFFFFF = 0xc47d7783 := by
  rw [show (3584 : Nat) = 3072 + 512 from rfl, crcZerosF_add, crcZerosAcc6, crcZeroStep6]

theorem crcZerosAcc8 : crcZerosF 4096 0xFFFFFFFF = 0x38e3ffee := by
  rw [show (4096 : Nat) = 3584 + 512 from rfl, crcZerosF_add, crcZerosAcc7, crcZeroStep7]

theorem crcZerosAcc9 : crcZerosF 4608 0xFFFFFFFF = 0x6af3d782 := by
  rw [show (4608 : Nat) = 4096 + 512 from rfl, crcZerosF_add, crcZerosAcc8, crcZeroStep8]

theorem crcZerosAcc10 : crcZerosF 5120 0xFFFFFFFF = 0x94c33195 := by
  rw [show (5120 : Nat) = 4608 + 512 from rfl, crcZerosF_add, crcZerosAcc9, crcZeroStep9]

theorem crcZerosAcc11 : crcZerosF 5632 0xFFFFFFFF = 0x4625821d := by
  rw [show (5632 : Nat) = 5120 + 512 from rfl, crcZerosF_add, crcZerosAcc10, crcZeroStep10]

theorem crcZerosAcc12 : crcZerosF 6144 0xFFFFFFFF = 0x35013cc0 := by
  rw [show (6144 : Nat) = 5632 + 512 from rfl, crcZerosF_add, crcZerosAcc11, crcZeroStep11]

theorem crcZerosAcc13 : crcZerosF 6656 0xFFFFFFFF = 0xe110ef8a := by
  rw [show (6656 : Nat) = 6144 + 512 from rfl, crcZerosF_add, crcZerosAcc12, crcZeroStep12]

theorem crcZerosAcc14 : crcZerosF 7168 0xFFFFFFFF = 0xcf6ec82b := by
  rw [show (7168 : Nat) = 6656 + 512 from rfl, crcZerosF_add, crcZerosAcc13, crcZeroStep13]

theorem crcZerosAcc15 : crcZerosF 7680 0xFFFFFFFF = 0x928d0f03 := by
  rw [show (7680 : Nat) = 7168 + 512 from rfl, crcZerosF_add, crcZerosAcc14, crcZeroStep14]

theorem crcZerosAcc16 : crcZerosF 8192 0xFFFFFFFF = 0x270b666b := by
  rw [show (8192 : Nat) = 7680 + 512 from rfl, crcZerosF_add, crcZerosAcc15, crcZeroStep15]

theorem crcZerosAcc17 : crcZerosF 8704 0xFFFFFFFF = 0x3a4bc226 := by
  rw [show (8704 : Nat) = 8192 + 512 from rfl, crcZerosF_add, crcZerosAcc16, crcZeroStep16]

theorem crcZerosAcc18 : crcZerosF 9216 0xFFFFFFFF = 0x34079eee := by
  rw [show (9216 : Nat) = 8704 + 512 from rfl, crcZerosF_add, crcZerosAcc17, crcZeroStep17]

theorem crcZerosAcc19 : crcZerosF 9728 0xFFFFFFFF = 0xf1d7aa70 := by
  rw [show (9728 : Nat) = 9216 + 512 from rfl, crcZerosF_add, crcZerosAcc18, crcZeroStep18]

theorem crcZerosAcc20 : crcZerosF 10240 0xFFFFFFFF = 0xd8e22165 := by
  rw [show (10240 : Nat) = 9728 + 512 from rfl, crcZerosF_add, crcZerosAcc19, crcZeroStep19]

theorem crcZerosAcc21 : crcZerosF 10752 0xFFFFFFFF = 0xe288b0a4 := by
  rw [show (10752 : Nat) = 10240 + 512 from rfl, crcZerosF_add, crcZerosAcc20, crcZeroStep20]

theorem crcZerosAcc22 : crcZerosF 11264 0xFFFFFFFF = 0x1cd4c6fa := by
  rw [show (11264 : Nat) = 10752 + 512 from rfl, crcZerosF_add, crcZerosAcc21, crcZeroStep21]

theorem crcZerosAcc23 : crcZerosF 11776 0xFFFFFFFF = 0x169c14c6 := by
  rw [show (11776 : Nat) = 11264 + 512 from rfl, crcZerosF_add, crcZerosAcc22, crcZeroStep22]

theorem crcZerosAcc24 : crcZerosF 12288 0xFFFFFFFF = 0x75da7513 := by
  rw [show (12288 : Nat) = 11776 + 512 from rfl, crcZerosF_add, crcZerosAcc23, crcZeroStep23]

theorem crcZerosAcc25 : crcZerosF 12800 0xFFFFFFFF = 0x29433a45 := by
  rw [show (12800 : Nat) = 12288 + 512 from rfl, crcZerosF_add, crcZerosAcc24, crcZeroStep24]

theorem crcZerosAcc26 : crcZerosF 13312 0xFFFFFFFF = 0xc2e81776 := by
  rw [show (13312 : Nat) = 12800 + 512 from rfl, crcZerosF_add, crcZerosAcc25, crcZeroStep25]

theorem crcZerosAcc27 : crcZerosF 13824 0xFFFFFFFF = 0x5a58a3ca := by
  rw [show (13824 : Nat) = 13312 + 512 from rfl, crcZerosF_add, crcZerosAcc26, crcZeroStep26]

theorem crcZerosAcc28 : crcZerosF 14336 0xFFFFFFFF = 0xf6714b3 := by
  rw [show (14336 : Nat) = 13824 + 512 from rfl, crcZerosF_add, crcZerosAcc27, crcZeroStep27]

theorem crcZerosAcc29 : crcZerosF 14848 0xFFFFFFFF = 0xdc4a9898 := by
  rw [show (14848 : Nat) = 14336 + 512 from rfl, crcZerosF_add, crcZerosAcc28, crcZeroStep28]

theorem crcZerosAcc30 : crcZerosF 15360 0xFFFFFFFF = 0x633f7f01 := by
  rw [show (15360 : Nat) = 14848 + 512 from rfl, crcZerosF_add, crcZerosAcc29, crcZeroStep29]

theorem crcZerosAcc31 : crcZerosF 15872 0xFFFFFFFF = 0xe6bcb219 := by
  rw [show (15872 : Nat) = 15360 + 512 from rfl, crcZerosF_add, crcZerosAcc30, crcZeroStep30]

theorem crcZerosAcc32 : crcZerosF 16384 0xFFFFFFFF = 0x54ab2d79 := by
  rw [show (16384 : Nat) = 15872 + 512 from rfl, crcZerosF_add, crcZerosAcc31, crcZeroStep31]

/-- zlib.crc32 of the full 16 KiB all-zero partition-entry region. -/
theorem crc32_replicate_16384 : crc32 (List.replicate 16384 0) = 0xAB54D286 := by
  rw [crc32, foldl_crcByte_replicate, crcZerosAcc32]; decide

end NXMig

namespace NXMig

/-! ## Partition Scanner (`core/partition_scanner.py`) -/

/-- Python `str.lower` on the ASCII range (all names the scanner compares
are ASCII). -/
def lowerChar (c : Char) : Char :=
  if 65 ≤ c.toNat ∧ c.toNat ≤ 90 then Char.ofNat (c.toNat + 32) else c

def pyLower (s : String) : String := String.mk (s.data.map lowerChar)

/-- Microsoft basic-data GUID recognised as FAT32. -/
def GUID_FAT32 : Bytes :=
  [0xA2, 0xA0, 0xD0, 0xEB, 0xE5, 0xB9, 0x33, 0x44,
   0x87, 0xC0, 0x68, 0xB6, 0xB7, 0x26, 0x99, 0xC7]

/-- Linux-filesystem type GUID. -/
def GUID_LINUX : Bytes :=
  [0xAF, 0x3D, 0xC6, 0x0F, 0x83, 0x84, 0x72, 0x47,
   0x8E, 0x79, 0x3D, 0x69, 0xD8, 0x47, 0x7D, 0xE4]

/-- Vendor emuMMC GUID whose last six bytes spell "emuMMC". -/
def GUID_EMUMMC : Bytes :=
  [0x00, 0x7E, 0xCA, 0x11, 0x00, 0x00, 0x00, 0x00,
   0x00, 0x00, 0x65, 0x6D, 0x75, 0x4D, 0x4D, 0x43]

/-- PartitionScanner._categorize_gpt_partition: classify a GPT entry by
type GUID; for the Linux GUID the name decides Linux vs Android via
`name.lower() == 'l4t'`. -/
def categorizeGptPartition (typeGuid : Bytes) (name : String) : String :=
  if typeGuid = GUID_FAT32 then "FAT32"
  else if typeGuid = GUID_LINUX then
    if pyLower name = "l4t" then "Linux" else "Android"
  else if typeGuid = GUID_EMUMMC then "emuMMC"
  else "Unknown"

/-- The duplicate test of PartitionScanner._deduplicate_partitions: same
size, same category, and start sectors identical or closer than
`size_sectors // 100`. -/
def isDuplicate (p other : Partition) : Bool :=
  other.size_sectors == p.size_sectors && other.category == p.category &&
    (let d := |other.start_sector - p.start_sector|
     d == 0 || d < p.size_sectors / 100)

/-- One clustering walk of `_deduplicate_partitions`: the first unused
partition seeds a cluster, later unused partitions matching
`isDuplicate` join it and are marked used; the kept record is the first
GPT member if any (else the seed) with the in_mbr/in_gpt flags or-ed over
the cluster.  The fuel argument (list length at the start) makes the
recursion structural. -/
def dedupGo : Nat → List Partition → List Partition
  | 0, _ => []
  | _ + 1, [] => []
  | fuel + 1, p :: rest =>
    let dups := p :: rest.filter (fun o => isDuplicate p o)
    let chosen0 := match dups.filter (fun d => d.in_gpt) with
      | [] => p
      | g :: _ => g
    let chosen := { chosen0 with in_mbr := dups.any (fun d => d.in_mbr),
                                 in_gpt := dups.any (fun d => d.in_gpt) }
    chosen :: dedupGo fuel (rest.filter (fun o => !(isDuplicate p o)))

def dedupPass (ps : List Partition) : List Partition := dedupGo ps.length ps

/-- Stable insertion sort by an integer key (Python's `sorted` / `sort`
are stable; an element is inserted after all strictly smaller keys and
before equal ones seen later). -/
def insertByKey (key : Partition → Int) (p : Partition) :
    List Partition → List Partition
  | [] => [p]
  | q :: rest =>
    if key q < key p then q :: insertByKey key p rest else p :: q :: rest

def sortByKey (key : Partition → Int) (l : List Partition) : List Partition :=
  l.foldr (insertByKey key) []

/-- The recalculation loop at the end of `_deduplicate_partitions`. -/
def recalcStep (l : DiskLayout) (p : Partition) : DiskLayout :=
  if p.category = "Linux" then
    { l with has_linux := true, linux_size_mb := l.linux_size_mb + p.size_mb }
  else if p.category = "Android" then
    { l with has_android := true,
             android_size_mb := l.android_size_mb + p.size_mb }
  else if p.category = "emuMMC" then
    { l with has_emummc := true,
             emummc_size_mb := l.emummc_size_mb + p.size_mb }
  else if p.category = "FAT32" then
    { l with fat32_size_mb := l.fat32_size_mb + p.size_mb }
  else l

/-- PartitionScanner._deduplicate_partitions: cluster-merge, sort by
start sector, then clear and recompute the cached flags and sums. -/
def deduplicatePartitions (l : DiskLayout) : DiskLayout :=
  let sorted := sortByKey (fun p => p.start_sector) (dedupPass l.partitions)
  let cleared :=
    { l with
      partitions := sorted,
      has_linux := false, has_android := false,
      has_emummc := false, fat32_size_mb := 0,
      linux_size_mb := 0, android_size_mb := 0,
      emummc_size_mb := 0 }
  sorted.foldl recalcStep cleared

/-! ## Layout Planner (`calculate_target_layout`) -/

structure MigrationOptions where
  migrate_linux : Bool
  migrate_android : Bool
  migrate_emummc : Bool
  expand_fat32 : Bool
  deriving Repr, DecidableEq

def ALIGN_SECTORS : Int := 0x8000

/-- The in-place rounding `current_lba = ((current_lba + ALIGN - 1) //
ALIGN) * ALIGN` guarded by `current_lba % ALIGN != 0`. -/
def alignUp (lba : Int) : Int :=
  if lba % ALIGN_SECTORS ≠ 0 then
    ((lba + ALIGN_SECTORS - 1) / ALIGN_SECTORS) * ALIGN_SECTORS
  else lba

/-- total_reserved_mb accumulated for the categories being migrated. -/
def totalReservedMb (src : DiskLayout) (opts : MigrationOptions) : Int :=
  (if src.has_linux && opts.migrate_linux then src.linux_size_mb else 0) +
  (if src.has_android && opts.migrate_android then src.android_size_mb else 0) +
  (if src.has_emummc && opts.migrate_emummc then src.emummc_size_mb else 0)

/-- total_disk_mb = (total_sectors * SECTOR_SIZE) // (1024*1024) with
total_sectors = target_size_bytes // SECTOR_SIZE. -/
def totalDiskMb (targetSizeBytes : Int) : Int :=
  ((targetSizeBytes / 512) * 512) / (1024 * 1024)

/-- The FAT32 size the planner chooses: expand into everything except the
16 MiB lead, the reserved preserves and the 9 MiB tail, or keep the
source size. -/
def plannedFat32Mb (src : DiskLayout) (targetSizeBytes : Int)
    (opts : MigrationOptions) : Int :=
  if opts.expand_fat32 then
    totalDiskMb targetSizeBytes -
      (totalReservedMb src opts + ALIGN_SECTORS / 2048 + 9)
  else src.fat32_size_mb

/-- The per-set placement loops: each preserved partition is placed at the
running LBA which then advances by its size (no realignment inside a
set). -/
def placeRun (mk : Partition → Int → Partition) :
    List Partition → DiskLayout × Int → DiskLayout × Int
  | [], acc => acc
  | p :: rest, (l, cur) =>
    placeRun mk rest (l.addPartition (mk p cur), cur + p.size_sectors)

def mkAndroidPart (apart : Partition) (cur : Int) : Partition :=
  { name := apart.name, type_id := 0, type_name := apart.type_name,
    start_sector := cur, size_sectors := apart.size_sectors,
    size_mb := apart.size_mb, category := "Android",
    in_mbr := false, in_gpt := true }

def mkEmummcPart (hasGpt : Bool) (epart : Partition) (cur : Int) : Partition :=
  { name := epart.name, type_id := 0xE0, type_name := "emuMMC",
    start_sector := cur, size_sectors := epart.size_sectors,
    size_mb := epart.size_mb, category := "emuMMC",
    in_mbr := true, in_gpt := hasGpt }

/-- PartitionScanner.calculate_target_layout. -/
def calculateTargetLayout (src : DiskLayout) (targetSizeBytes : Int)
    (opts : MigrationOptions) : DiskLayout :=
  let hasGpt := src.has_android && opts.migrate_android
  let tl : DiskLayout :=
    { total_sectors := targetSizeBytes / 512,
      has_gpt := hasGpt,
      android_dynamic :=
        if src.has_android && opts.migrate_android then src.android_dynamic
        else false,
      emummc_double :=
        if src.has_emummc && opts.migrate_emummc then src.emummc_double
        else false }
  let fat32SizeMb := plannedFat32Mb src targetSizeBytes opts
  let fat32Sectors := (fat32SizeMb * 1024 * 1024) / 512
  let fat32Part : Partition :=
    { name := "hos_data", type_id := 0x0C, type_name := "FAT32 (LBA)",
      start_sector := ALIGN_SECTORS, size_sectors := fat32Sectors,
      size_mb := fat32SizeMb, category := "FAT32",
      in_mbr := true, in_gpt := hasGpt }
  let tl := tl.addPartition fat32Part
  let cur := alignUp (ALIGN_SECTORS + fat32Sectors)
  let (tl, cur) :=
    if src.has_linux && opts.migrate_linux then
      let linuxSectors := (src.linux_size_mb * 1024 * 1024) / 512
      let linuxPart : Partition :=
        { name := "l4t", type_id := 0x83, type_name := "Linux",
          start_sector := cur, size_sectors := linuxSectors,
          size_mb := src.linux_size_mb, category := "Linux",
          in_mbr := !hasGpt, in_gpt := hasGpt }
      (tl.addPartition linuxPart, alignUp (cur + linuxSectors))
    else (tl, cur)
  let (tl, cur) :=
    if src.has_android && opts.migrate_android then
      let placed := placeRun mkAndroidPart src.getAndroidPartitions (tl, cur)
      (placed.1, alignUp placed.2)
    else (tl, cur)
  let placedE :=
    if src.has_emummc && opts.migrate_emummc then
      placeRun (mkEmummcPart hasGpt) src.getEmummcPartitions (tl, cur)
    else (tl, cur)
  placedE.1

end NXMig

namespace NXMig

/-! ## Partition Writer (`core/partition_writer.py`) -/

/-- UTF-16LE encoding of one character, as Python's
`str.encode('utf-16le')` produces it (surrogate pair above U+FFFF). -/
def utf16leChar (c : Char) : Bytes :=
  let n := c.toNat
  if n < 0x10000 then [n % 256, n / 256 % 256]
  else
    let m := n - 0x10000
    let hi := 0xD800 + m / 0x400
    let lo := 0xDC00 + m % 0x400
    [hi % 256, hi / 256 % 256, lo % 256, lo / 256 % 256]

def utf16le (s : String) : Bytes := (s.data.map utf16leChar).flatten

/-- One 128-byte GPT entry as `_create_gpt` assembles it: type GUID by
category, random partition GUID with byte 7 cleared, inclusive start/end
LBAs, zero attributes, UTF-16LE name truncated to 72 bytes, zero padding
(the slice writes are contiguous and in increasing offsets, so the
buffer is their concatenation). -/
def gptEntryBytes (rand16 : Bytes) (p : Partition) : Bytes :=
  let typeGuid :=
    if p.category = "FAT32" then GUID_FAT32
    else if p.category = "Linux" ∨ p.category = "Android" then GUID_LINUX
    else if p.category = "emuMMC" then GUID_EMUMMC
    else List.replicate 16 0
  let partGuid := rand16.set 7 0
  let nameB := (utf16le p.name).take 72
  typeGuid ++ partGuid ++ le64i p.start_sector ++
    le64i (p.start_sector + p.size_sectors - 1) ++ le64 0 ++
    nameB ++ List.replicate (72 - nameB.length) 0

/-- The used prefix of the 16 KiB entry region: the entries written for
the in-GPT partitions (at most 128), each 128 bytes, in layout order.
`rand` supplies the os.urandom(16) bytes of the i-th written entry. -/
def gptEntriesUsed (rand : Nat → Bytes) : Nat → List Partition → Bytes
  | _, [] => []
  | i, p :: rest => gptEntryBytes (rand i) p ++ gptEntriesUsed rand (i + 1) rest

/-- GPT header per `_create_gpt_header`.  The Python code zeroes a
512-byte buffer and then assigns the fourteen header fields as contiguous
slices in increasing offset order covering bytes 0..92, so the buffer
equals their concatenation followed by 420 zero bytes; the header CRC is
then computed over bytes 0..92 (with the CRC field zero) and written back
into bytes 16..20. -/
def createGptHeader (myLba altLba partEntLba : Int) (diskGuid : Bytes)
    (numEntries : Nat) (entriesData : Bytes) (totalSectors : Int) : Bytes :=
  let pre : Bytes :=
    [0x45, 0x46, 0x49, 0x20, 0x50, 0x41, 0x52, 0x54] ++
    le32 0x00010000 ++ le32 92 ++ le32 0 ++ le32 0 ++
    le64i myLba ++ le64i altLba ++ le64 34 ++ le64i (totalSectors - 34) ++
    diskGuid ++ le64i partEntLba ++ le32 numEntries ++ le32 128 ++
    le32 (crc32 entriesData) ++ List.replicate 420 0
  setSlice pre 16 (le32 (crc32 (getSlice pre 0 92)))

/-- The b'NYXGPT' tag appended to ten random bytes to form the disk
GUID. -/
def NYXGPT : Bytes := [0x4E, 0x59, 0x58, 0x47, 0x50, 0x54]

structure GptData where
  mainHeader : Bytes
  entries : Bytes
  backupHeader : Bytes

/-- PartitionWriter._create_gpt: build the 16 KiB entry region and the two
headers.  `rand` gives each entry's random GUID bytes, `r10` the ten
random disk-GUID bytes.  The Python loop over `layout.partitions` skips
entries with `in_gpt` unset and stops after 128, i.e. it processes
`(filter in_gpt).take 128`; the CRC input is the slice
`gpt_entries[:gpt_idx * 128]`. -/
def createGpt (layout : DiskLayout) (rand : Nat → Bytes) (r10 : Bytes) :
    GptData :=
  let parts := (layout.partitions.filter (fun p => p.in_gpt)).take 128
  let k := parts.length
  let entries := gptEntriesUsed rand 0 parts ++
    List.replicate ((128 - k) * 128) 0
  let diskGuid := r10 ++ NYXGPT
  let entriesData := entries.take (k * 128)
  { mainHeader :=
      createGptHeader 1 (layout.total_sectors - 1) 2 diskGuid k
        entriesData layout.total_sectors,
    entries := entries,
    backupHeader :=
      createGptHeader (layout.total_sectors - 1) 1
        (layout.total_sectors - 33) diskGuid k entriesData
        layout.total_sectors }

/-- MBR slot order used by `_create_mbr` (`category_order` dict with
default 99). -/
def categoryOrder (c : String) : Int :=
  if c = "FAT32" then 1 else if c = "Linux" then 2
  else if c = "emuMMC" then 3 else 99

/-- One 16-byte MBR slot: status, CHS 0xFFFFFF, type, CHS 0xFFFFFF, LBA
start, sector count (the slice writes are contiguous). -/
def mbrEntryBytes (p : Partition) : Bytes :=
  [0x00] ++ [0xFF, 0xFF, 0xFF] ++ [(p.type_id % 256).toNat] ++
    [0xFF, 0xFF, 0xFF] ++ le32i p.start_sector ++ le32i p.size_sectors

/-- The slot-filling loop of `_create_mbr` (at most four slots). -/
def writeMbrEntries (mbr : Bytes) (idx : Nat) :
    List Partition → Bytes × Nat
  | [] => (mbr, idx)
  | p :: rest =>
    if idx ≥ 4 then (mbr, idx)
    else writeMbrEntries (setSlice mbr (0x1BE + idx * 16) (mbrEntryBytes p))
      (idx + 1) rest

/-- PartitionWriter._create_mbr: zero 512 bytes, random disk signature at
0x1B8, boot signature 0x55AA, MBR-visible partitions sorted by category
order (stable), then a protective 0xEE entry if the layout has a GPT and
a slot is free. -/
def createMbr (layout : DiskLayout) (sig4 : Bytes) : Bytes :=
  let m1 := setSlice (List.replicate 512 0) 0x1B8 sig4
  let m2 := setSlice m1 0x1FE [0x55, 0xAA]
  let mbrParts := sortByKey (fun p => categoryOrder p.category)
    (layout.partitions.filter (fun p => p.in_mbr))
  let filled := writeMbrEntries m2 0 mbrParts
  if layout.has_gpt ∧ filled.2 < 4 then
    setSlice filled.1 (0x1BE + filled.2 * 16)
      ([0x00, 0xFF, 0xFF, 0xFF, 0xEE, 0xFF, 0xFF, 0xFF] ++ le32 1 ++
        le32i (layout.total_sectors - 1))
  else filled.1

/-- PartitionWriter.write_partition_table as the sequence of sector
writes it issues (after the single up-front prepare): each element is
(start LBA, data).  The writes happen in exactly this order: MBR at 0;
then, when the layout has a GPT: the primary header at 1, the entry
array at 2, the backup entry array at total-33, the backup header at
total-1. -/
def writePartitionTable (layout : DiskLayout) (sig4 : Bytes)
    (rand : Nat → Bytes) (r10 : Bytes) : List (Int × Bytes) :=
  let mbr := createMbr layout sig4
  (0, mbr) ::
    (if layout.has_gpt then
      let g := createGpt layout rand r10
      [(1, g.mainHeader), (2, g.entries),
       (layout.total_sectors - 33, g.entries),
       (layout.total_sectors - 1, g.backupHeader)]
    else [])

end NXMig

namespace NXMig

/-! ## Block Device Gateway (`DiskManager.write_sectors`) -/

/-- What one WriteFile attempt does in the host environment: succeeds,
raises a pywintypes.error with a Windows error code (5 = access denied,
32 = sharing violation, ...), or raises some other exception (this also
covers the IOError raised for a nonzero error code or a short write
after the call returned). -/
inductive WriteOutcome where
  | success
  | winError (code : Nat)
  | otherError
  deriving Repr, DecidableEq

/-- Observable actions of `write_sectors`. -/
inductive WriteEv where
  | prepareDisk
  | writeAttempt (n : Nat)
  | sleepOneSec
  deriving Repr, DecidableEq

/-- How `write_sectors` returns: normally, with an IOError (whose text
carries the access-denied guidance block iff the last Windows error code
was 5), or with the ValueError for a bad buffer length. -/
inductive WriteResult where
  | ok
  | ioError (accessGuidance : Bool)
  | valueError
  deriving Repr, DecidableEq

def MAX_RETRIES : Nat := 3

/-- The `for attempt in range(MAX_RETRIES)` loop of `write_sectors`.
`f` gives the outcome of the WriteFile attempt with index `attempt`;
`_prepare_disk_for_write` runs only when `attempt == 0` and prepare was
not skipped; a pywintypes error on the last attempt raises the detailed
IOError (guidance iff code 5), on earlier attempts the loop sleeps
RETRY_DELAY = 1 s and retries; any other exception raises immediately. -/
def runAttempts (f : Nat → WriteOutcome) (skipPrepare : Bool) :
    Nat → Nat → List WriteEv × WriteResult
  | _, 0 => ([], .ok)
  | attempt, fuel + 1 =>
    let pre : List WriteEv :=
      if attempt = 0 ∧ ¬skipPrepare then [.prepareDisk] else []
    match f attempt with
    | .success => (pre ++ [.writeAttempt attempt], .ok)
    | .winError c =>
      if attempt = MAX_RETRIES - 1 then
        (pre ++ [.writeAttempt attempt], .ioError (c = 5))
      else
        let rest := runAttempts f skipPrepare (attempt + 1) fuel
        (pre ++ [.writeAttempt attempt, .sleepOneSec] ++ rest.1, rest.2)
    | .otherError => (pre ++ [.writeAttempt attempt], .ioError false)

/-- DiskManager.write_sectors: the length check precedes everything else;
only when it passes does the retry loop (and with it any preparation,
open or write) run. -/
def writeSectors (dataLen : Nat) (skipPrepare : Bool)
    (f : Nat → WriteOutcome) : List WriteEv × WriteResult :=
  if dataLen % 512 ≠ 0 then ([], .valueError)
  else runAttempts f skipPrepare 0 MAX_RETRIES

def countWrites (evs : List WriteEv) : Nat :=
  evs.countP (fun e => match e with | .writeAttempt _ => true | _ => false)

def countPrepares (evs : List WriteEv) : Nat :=
  evs.countP (fun e => match e with | .prepareDisk => true | _ => false)

def countSleeps (evs : List WriteEv) : Nat :=
  evs.countP (fun e => match e with | .sleepOneSec => true | _ => false)

/-! ## Post-format FAT32 BPB fixup
(`MigrationEngine._verify_and_fix_fat32_bpb`) -/

/-- Abstract I/O failure. -/
inductive IOFail where
  | ioErr
  deriving Repr, DecidableEq

/-- The environment the fixup body runs against: the outcome of the
boot-sector read and of the two sector writes. -/
structure BpbEnv where
  readBoot : Except IOFail Bytes
  writeMain : Except IOFail Unit
  writeBackup : Except IOFail Unit

/-- Little-endian decoding (struct.unpack of a '<I'/'<H' slice). -/
def leNat (bs : Bytes) : Nat := bs.foldr (fun b acc => b + 256 * acc) 0

/-- Observable actions of the fixup body. -/
inductive BpbAct where
  | dismount
  | readBootSector
  | writeBootSector
  | writeBackupBootSector
  | refreshPartitions
  deriving Repr, DecidableEq

/-- The body of `_verify_and_fix_fat32_bpb` (everything inside the `try`):
dismount, read partition sector 0, parse `total_sectors_32` from bytes
32..36, and if it differs from the partition's sector count overwrite
those four bytes and rewrite the sector at partition offsets 0 and 6,
then refresh.  Returns the action trace or the first failure. -/
def bpbFixBody (env : BpbEnv) (expectedTotal : Nat) :
    Except IOFail (List BpbAct) := do
  let boot ← env.readBoot
  let total32 := leNat (getSlice boot 32 4)
  if total32 ≠ expectedTotal then
    let _updated := setSlice boot 32 (le32 expectedTotal)
    let _ ← env.writeMain
    let _ ← env.writeBackup
    pure [.dismount, .readBootSector, .writeBootSector,
          .writeBackupBootSector, .refreshPartitions]
  else
    pure [.dismount, .readBootSector]

/-- `_verify_and_fix_fat32_bpb` itself: the whole body is wrapped in
`try/except Exception`, whose handler only logs ("Continuing anyway")
and falls through, so the function always returns normally. -/
def verifyAndFixFat32Bpb (env : BpbEnv) (expectedTotal : Nat) :
    Except IOFail Unit :=
  match bpbFixBody env expectedTotal with
  | .ok _ => .ok ()
  | .error _ => .ok ()

/-! ## emuMMC configuration emission
(`MigrationEngine._update_emummc_config`,
`CleanupEngine._update_emummc_config`) -/

/-- The values written into emuMMC/RAW1/raw_based (4-byte little-endian)
and the `sector`/`id` keys of emuMMC/emummc.ini. -/
structure EmummcConfig where
  raw_based : Bytes
  sector : Int
  folderId : Int
  path : String
  nintendo_path : String
  deriving Repr, DecidableEq

/-- Little-endian value of the ASCII folder name "RAW1" used for the
`id` key. -/
def RAW1_ID : Int := 0x31574152

/-- MigrationEngine._update_emummc_config: the sector is
`target_start + HEKATE_BOOT0_OFFSET` (0x8000).  The inner-GPT offset
detected by `_write_emummc_efi_signature` is received but takes no part
in the calculation (exactly as in the source, where `detected_offset`
is assigned and never used again). -/
def updateEmummcConfigMigration (targetStart : Int)
    (_detectedOffset : Int) : EmummcConfig :=
  let sector := targetStart + 0x8000
  { raw_based := le32i sector, sector := sector, folderId := RAW1_ID,
    path := "emuMMC/RAW1", nintendo_path := "emuMMC/RAW1/Nintendo" }

/-- CleanupEngine._update_emummc_config: the sector is
`target_start + EMUMMC_INI_OFFSET` with EMUMMC_INI_OFFSET = 0x17000. -/
def updateEmummcConfigCleanup (targetStart : Int) : EmummcConfig :=
  let sector := targetStart + 0x17000
  { raw_based := le32i sector, sector := sector, folderId := RAW1_ID,
    path := "emuMMC/RAW1", nintendo_path := "emuMMC/RAW1/Nintendo" }

end NXMig

namespace NXMig

/-! ## Claim C10 -/

/-- C10: for every call to write_sectors whose byte buffer length is not a
multiple of 512, the ValueError is raised before any disk preparation,
device open or device write occurs: the action trace is empty and the
result is the ValueError, so the device is untouched. -/
theorem C10_length_check (dataLen : Nat) (skip : Bool)
    (f : Nat → WriteOutcome) (h : dataLen % 512 ≠ 0) :
    writeSectors dataLen skip f = ([], .valueError) := by
  simp [writeSectors, h]

theorem C10_length_check_witness :
    (513 : Nat) % 512 ≠ 0 ∧
      writeSectors 513 false (fun _ => .success) = ([], .valueError) :=
  ⟨by decide, C10_length_check 513 false (fun _ => .success) (by decide)⟩

/-! ## Claim C4 -/

/-- C4 counterexample: an access-denied failure (Windows error 5) on the
first attempt is retried rather than failing immediately — with error 5
on attempt 0 and success on attempt 1, write_sectors returns normally
after two write attempts, contradicting the claim that access-denied
fails immediately with no retry. -/
theorem C4_counterexample :
    (writeSectors 512 false
        (fun n => if n = 0 then .winError 5 else .success)).2 = .ok ∧
      countWrites (writeSectors 512 false
        (fun n => if n = 0 then .winError 5 else .success)).1 = 2 := by
  constructor <;> decide

/-- C4 (amended): every Windows-API write failure — including
access-denied (code 5) and sharing violations (code 32) — is retried up
to 3 total attempts with a 1-second sleep between attempts; prepare runs
exactly once before the first attempt when not skipped and is never
re-run on a retry; if all three attempts raise Windows errors the final
IOError carries the access-denied guidance iff the last code was 5; any
non-Windows-API exception aborts immediately without retry. -/
theorem C4_retry_policy (dataLen : Nat) (skip : Bool)
    (f : Nat → WriteOutcome) (h : dataLen % 512 = 0) :
    countPrepares (writeSectors dataLen skip f).1 =
        (if skip then 0 else 1) ∧
    (f 0 = .success →
      (writeSectors dataLen skip f).2 = .ok ∧
      countWrites (writeSectors dataLen skip f).1 = 1 ∧
      countSleeps (writeSectors dataLen skip f).1 = 0) ∧
    (f 0 = .otherError →
      (writeSectors dataLen skip f).2 = .ioError false ∧
      countWrites (writeSectors dataLen skip f).1 = 1 ∧
      countSleeps (writeSectors dataLen skip f).1 = 0) ∧
    (∀ c0, f 0 = .winError c0 → f 1 = .success →
      (writeSectors dataLen skip f).2 = .ok ∧
      countWrites (writeSectors dataLen skip f).1 = 2 ∧
      countSleeps (writeSectors dataLen skip f).1 = 1) ∧
    (∀ c0, f 0 = .winError c0 → f 1 = .otherError →
      (writeSectors dataLen skip f).2 = .ioError false ∧
      countWrites (writeSectors dataLen skip f).1 = 2 ∧
      countSleeps (writeSectors dataLen skip f).1 = 1) ∧
    (∀ c0 c1, f 0 = .winError c0 → f 1 = .winError c1 → f 2 = .success →
      (writeSectors dataLen skip f).2 = .ok ∧
      countWrites (writeSectors dataLen skip f).1 = 3 ∧
      countSleeps (writeSectors dataLen skip f).1 = 2) ∧
    (∀ c0 c1, f 0 = .winError c0 → f 1 = .winError c1 →
      f 2 = .otherError →
      (writeSectors dataLen skip f).2 = .ioError false ∧
      countWrites (writeSectors dataLen skip f).1 = 3 ∧
      countSleeps (writeSectors dataLen skip f).1 = 2) ∧
    (∀ c0 c1 c2, f 0 = .winError c0 → f 1 = .winError c1 →
      f 2 = .winError c2 →
      (writeSectors dataLen skip f).2 = .ioError (decide (c2 = 5)) ∧
      countWrites (writeSectors dataLen skip f).1 = 3 ∧
      countSleeps (writeSectors dataLen skip f).1 = 2) := by
  have hw : writeSectors dataLen skip f = runAttempts f skip 0 MAX_RETRIES := by
    simp [writeSectors, h]
  rcases h0 : f 0 with _ | c0 | _ <;>
    rcases h1 : f 1 with _ | c1 | _ <;>
      rcases h2 : f 2 with _ | c2 | _ <;>
        cases skip <;>
          simp [hw, runAttempts, MAX_RETRIES, h0, h1, h2, countWrites,
            countPrepares, countSleeps, List.countP, List.countP.go]

theorem C4_retry_policy_witness :
    (512 : Nat) % 512 = 0 ∧
      (writeSectors 512 true (fun _ => .success)).2 = .ok :=
  ⟨by decide,
    ((C4_retry_policy 512 true (fun _ => .success) (by decide)).2.1 rfl).1⟩

/-! ## Claim C3 -/

/-- Concrete environment in which reading the boot sector fails. -/
def bpbFailEnv : BpbEnv :=
  { readBoot := .error .ioErr, writeMain := .ok (), writeBackup := .ok () }

/-- C3 counterexample: when reading the boot sector fails, the fixup body
raises an error, yet _verify_and_fix_fat32_bpb still returns normally —
the error is logged and swallowed, so the migration does not fail,
contradicting the claim that BPB-fixup errors are raised to the caller. -/
theorem C3_counterexample :
    bpbFixBody bpbFailEnv 4096 = .error .ioErr ∧
      verifyAndFixFat32Bpb bpbFailEnv 4096 = .ok () :=
  ⟨rfl, rfl⟩

/-- C3 (amended): every error during the post-format FAT32 BPB fixup
(read, check or rewrite of the boot sector) is caught inside
_verify_and_fix_fat32_bpb, logged and swallowed; the function always
returns normally and the migration continues. -/
theorem C3_bpb_errors_swallowed (env : BpbEnv) (expectedTotal : Nat) :
    verifyAndFixFat32Bpb env expectedTotal = .ok () := by
  unfold verifyAndFixFat32Bpb
  cases bpbFixBody env expectedTotal <;> rfl

/-! ## Claim C2 -/

/-- C2 counterexample: in the Cleanup engine the emitted sector value for
an emuMMC partition starting at sector 0 is 0x17000, not
0 + 0x8000 as the claim states for both engines. -/
theorem C2_counterexample :
    (updateEmummcConfigCleanup 0).sector ≠ 0 + 0x8000 := by decide

/-- C2 (amended): the Migration engine emits raw_based and the ini sector
key both encoding target start + 0x8000, independent of the detected
inner-GPT offset; the Cleanup engine also emits both files with one
common value, but that value is target start + 0x17000
(EMUMMC_INI_OFFSET), not start + 0x8000. -/
theorem C2_emummc_sector (start off : Int) :
    (updateEmummcConfigMigration start off).sector = start + 0x8000 ∧
    (updateEmummcConfigMigration start off).raw_based =
      le32i ((updateEmummcConfigMigration start off).sector) ∧
    (updateEmummcConfigCleanup start).sector = start + 0x17000 ∧
    (updateEmummcConfigCleanup start).raw_based =
      le32i ((updateEmummcConfigCleanup start).sector) :=
  ⟨rfl, rfl, rfl, rfl⟩

/-! ## Claim C6 -/

/-- C6 counterexample: a Linux-GUID partition named "L4T" — differing
from "l4t" only in case — is classified Linux, not Android, because the
scanner lowercases the name before comparing. -/
theorem C6_counterexample :
    categorizeGptPartition GUID_LINUX "L4T" = "Linux" ∧
      ("L4T" : String) ≠ "l4t" := by
  constructor
  · decide
  · decide

/-- C6 (amended): a Linux-GUID partition is classified Linux iff its name
lowercased equals "l4t" — the comparison is case-insensitive, so names
differing only in case are Linux, while any other difference (for
example whitespace) yields Android. -/
theorem C6_l4t_classification (name : String) :
    (categorizeGptPartition GUID_LINUX name = "Linux" ↔
      pyLower name = "l4t") ∧
    (pyLower name ≠ "l4t" →
      categorizeGptPartition GUID_LINUX name = "Android") := by
  have hne : GUID_LINUX ≠ GUID_FAT32 := by decide
  constructor
  · constructor
    · intro hcat
      by_contra hnm
      simp [categorizeGptPartition, hne, hnm] at hcat
    · intro hnm
      simp [categorizeGptPartition, hne, hnm]
  · intro hnm
    simp [categorizeGptPartition, hne, hnm]

theorem C6_l4t_classification_witness :
    pyLower "sUPer" ≠ "l4t" ∧
      categorizeGptPartition GUID_LINUX "sUPer" = "Android" :=
  ⟨by decide, (C6_l4t_classification "sUPer").2 (by decide)⟩

end NXMig

namespace NXMig

/-! ## Claim C9 -/

/-- Partition used to exercise the duplicate tolerance: 599 sectors at
start 0. -/
def p599 : Partition :=
  { name := "a", type_id := 0xE0, type_name := "emuMMC", start_sector := 0,
    size_sectors := 599, size_mb := 0, category := "emuMMC",
    in_mbr := true, in_gpt := false }

/-- The same partition seen at start 5 (within 1 % of 599 = 5.99). -/
def q599 : Partition :=
  { name := "b", type_id := 0, type_name := "emuMMC", start_sector := 5,
    size_sectors := 599, size_mb := 0, category := "emuMMC",
    in_mbr := false, in_gpt := true }

/-- C9 counterexample: p599 and q599 share category and size and their
starts differ by 5 sectors, which is less than 1 % of 599 (5.99), so the
claim says they are duplicates; but the code compares against the
integer tolerance 599 // 100 = 5 and 5 < 5 fails, so the scanner keeps
both records. -/
theorem C9_counterexample :
    (q599.category = p599.category ∧
      q599.size_sectors = p599.size_sectors ∧
      100 * |q599.start_sector - p599.start_sector| < p599.size_sectors) ∧
    (dedupPass [p599, q599]).length = 2 := by
  constructor
  · refine ⟨rfl, rfl, by decide⟩
  · decide

/-- All Partition fields except the two table-membership flags agree. -/
def sameBody (a b : Partition) : Prop :=
  a.name = b.name ∧ a.type_id = b.type_id ∧ a.type_name = b.type_name ∧
  a.start_sector = b.start_sector ∧ a.size_sectors = b.size_sectors ∧
  a.size_mb = b.size_mb ∧ a.category = b.category

/-- The duplicate test, read as a proposition. -/
theorem isDuplicate_iff (p q : Partition) :
    isDuplicate p q = true ↔
      (q.size_sectors = p.size_sectors ∧ q.category = p.category ∧
        (q.start_sector = p.start_sector ∨
          |q.start_sector - p.start_sector| < p.size_sectors / 100)) := by
  simp [isDuplicate, abs_eq_zero, sub_eq_zero, and_assoc]

/-- C9 (amended): two scanned partitions are merged as duplicates iff
they share category and size_sectors and their starts are identical or
differ by less than the integer tolerance size_sectors // 100 (floor
division, so e.g. 5 sectors apart at size 599 is NOT merged); within a
cluster the kept record's in_mbr/in_gpt flags are the disjunctions over
the cluster, and its remaining fields are those of the first GPT member
when one exists, else those of the cluster seed. -/
theorem C9_dedup_characterization :
    (∀ p q : Partition,
      (dedupPass [p, q]).length = 1 ↔
        (q.size_sectors = p.size_sectors ∧ q.category = p.category ∧
          (q.start_sector = p.start_sector ∨
            |q.start_sector - p.start_sector| < p.size_sectors / 100))) ∧
    (∀ p (rest : List Partition),
      ∃ c, (dedupPass (p :: rest)).head? = some c ∧
        (c.in_mbr =
          (p :: rest.filter (fun o => isDuplicate p o)).any
            (fun d => d.in_mbr)) ∧
        (c.in_gpt =
          (p :: rest.filter (fun o => isDuplicate p o)).any
            (fun d => d.in_gpt)) ∧
        (match (p :: rest.filter (fun o => isDuplicate p o)).filter
            (fun d => d.in_gpt) with
          | [] => sameBody c p
          | g :: _ => sameBody c g)) := by
  constructor
  · intro p q
    by_cases h : isDuplicate p q
    · have hlen : (dedupPass [p, q]).length = 1 := by
        simp [dedupPass, dedupGo, h]
      rw [hlen]
      exact iff_of_true rfl ((isDuplicate_iff p q).mp h)
    · have hlen : (dedupPass [p, q]).length = 2 := by
        simp [dedupPass, dedupGo, h]
      rw [hlen]
      exact iff_of_false (by omega)
        (fun hp => h ((isDuplicate_iff p q).mpr hp))
  · intro p rest
    refine ⟨_, rfl, rfl, rfl, ?_⟩
    cases hg : (p :: rest.filter (fun o => isDuplicate p o)).filter
        (fun d => d.in_gpt) with
    | nil => simp [hg, sameBody]
    | cons g gs => simp [hg, sameBody]

theorem C9_dedup_characterization_witness :
    (dedupPass [p599, q599]).length = 1 ↔
      (q599.size_sectors = p599.size_sectors ∧
        q599.category = p599.category ∧
        (q599.start_sector = p599.start_sector ∨
          |q599.start_sector - p599.start_sector| <
            p599.size_sectors / 100)) :=
  C9_dedup_characterization.1 p599 q599

end NXMig

namespace NXMig

/-! ## Claim C7 -/

/-- A layout with a hybrid table and no partitions, 100 sectors. -/
def gptLayout0 : DiskLayout := { total_sectors := 100, has_gpt := true }

/-- Fixed stand-ins for the random bytes. -/
def zeroSig4 : Bytes := List.replicate 4 0

def zeroRand16 : Nat → Bytes := fun _ => List.replicate 16 0

def zeroBytes10 : Bytes := List.replicate 10 0

/-- C7 counterexample: in the trace of write_partition_table for a
GPT-carrying layout, the primary GPT header (sector 1) is written
strictly before the partition-entry array (sector 2), contradicting the
claimed order (entries before the primary header, header last). -/
theorem C7_counterexample :
    ((writePartitionTable gptLayout0 zeroSig4 zeroRand16
        zeroBytes10).map Prod.fst).indexOf (1 : Int) <
      ((writePartitionTable gptLayout0 zeroSig4 zeroRand16
        zeroBytes10).map Prod.fst).indexOf (2 : Int) := by
  decide

/-- C7 (amended): for every layout with has_gpt set, write_table issues
exactly five writes in this order: the MBR at sector 0, the primary GPT
header at sector 1, the primary entry array at sector 2, the backup
entry array at total-33, and the backup header at total-1 — so the
primary header is written immediately after the MBR and before the entry
array, not last. -/
theorem C7_write_order (layout : DiskLayout) (sig : Bytes)
    (rand : Nat → Bytes) (r10 : Bytes) (h : layout.has_gpt = true) :
    (writePartitionTable layout sig rand r10).map Prod.fst =
      [0, 1, 2, layout.total_sectors - 33, layout.total_sectors - 1] := by
  simp [writePartitionTable, h]

theorem C7_write_order_witness :
    gptLayout0.has_gpt = true ∧
      (writePartitionTable gptLayout0 zeroSig4 zeroRand16
          zeroBytes10).map Prod.fst =
        [0, 1, 2, gptLayout0.total_sectors - 33,
          gptLayout0.total_sectors - 1] :=
  ⟨rfl, C7_write_order gptLayout0 zeroSig4 zeroRand16 zeroBytes10 rfl⟩

/-! ## Claim C8 -/

/-- addPartition only appends to the partition list. -/
theorem addPartition_partitions (l : DiskLayout) (p : Partition) :
    (l.addPartition p).partitions = l.partitions ++ [p] := by
  unfold DiskLayout.addPartition
  split_ifs <;> rfl

/-- The partitions a placement run emits, with their computed starts. -/
def placedList (mk : Partition → Int → Partition) :
    List Partition → Int → List Partition
  | [], _ => []
  | p :: rest, cur => mk p cur :: placedList mk rest (cur + p.size_sectors)

theorem placeRun_partitions (mk : Partition → Int → Partition)
    (ps : List Partition) (l : DiskLayout) (cur : Int) :
    (placeRun mk ps (l, cur)).1.partitions =
      l.partitions ++ placedList mk ps cur := by
  induction ps generalizing l cur with
  | nil => simp [placeRun, placedList]
  | cons p rest ih =>
    simp [placeRun, placedList, ih, addPartition_partitions]

theorem placeRun_snd (mk : Partition → Int → Partition)
    (ps : List Partition) (l : DiskLayout) (cur : Int) :
    (placeRun mk ps (l, cur)).2 =
      cur + ((ps.map Partition.size_sectors).sum) := by
  induction ps generalizing l cur with
  | nil => simp [placeRun]
  | cons p rest ih =>
    simp [placeRun, ih]
    ring

/-- Named pieces of the planner's output, used to state its geometry. -/
def plannerHasGpt (src : DiskLayout) (opts : MigrationOptions) : Bool :=
  src.has_android && opts.migrate_android

def plannerFat32Sectors (src : DiskLayout) (bytes : Int)
    (opts : MigrationOptions) : Int :=
  (plannedFat32Mb src bytes opts * 1024 * 1024) / 512

def plannerFat32Part (src : DiskLayout) (bytes : Int)
    (opts : MigrationOptions) : Partition :=
  { name := "hos_data", type_id := 0x0C, type_name := "FAT32 (LBA)",
    start_sector := ALIGN_SECTORS,
    size_sectors := plannerFat32Sectors src bytes opts,
    size_mb := plannedFat32Mb src bytes opts, category := "FAT32",
    in_mbr := true, in_gpt := plannerHasGpt src opts }

def plannerCur1 (src : DiskLayout) (bytes : Int)
    (opts : MigrationOptions) : Int :=
  alignUp (ALIGN_SECTORS + plannerFat32Sectors src bytes opts)

def plannerLinuxSectors (src : DiskLayout) : Int :=
  (src.linux_size_mb * 1024 * 1024) / 512

def plannerLinuxSeg (src : DiskLayout) (bytes : Int)
    (opts : MigrationOptions) : List Partition :=
  if src.has_linux && opts.migrate_linux then
    [{ name := "l4t", type_id := 0x83, type_name := "Linux",
       start_sector := plannerCur1 src bytes opts,
       size_sectors := plannerLinuxSectors src,
       size_mb := src.linux_size_mb, category := "Linux",
       in_mbr := !plannerHasGpt src opts,
       in_gpt := plannerHasGpt src opts }]
  else []

def plannerCur2 (src : DiskLayout) (bytes : Int)
    (opts : MigrationOptions) : Int :=
  if src.has_linux && opts.migrate_linux then
    alignUp (plannerCur1 src bytes opts + plannerLinuxSectors src)
  else plannerCur1 src bytes opts

def plannerAndroidSeg (src : DiskLayout) (bytes : Int)
    (opts : MigrationOptions) : List Partition :=
  if src.has_android && opts.migrate_android then
    placedList mkAndroidPart src.getAndroidPartitions
      (plannerCur2 src bytes opts)
  else []

def plannerCur3 (src : DiskLayout) (bytes : Int)
    (opts : MigrationOptions) : Int :=
  if src.has_android && opts.migrate_android then
    alignUp (plannerCur2 src bytes opts +
      ((src.getAndroidPartitions.map Partition.size_sectors).sum))
  else plannerCur2 src bytes opts

def plannerEmummcSeg (src : DiskLayout) (bytes : Int)
    (opts : MigrationOptions) : List Partition :=
  if src.has_emummc && opts.migrate_emummc then
    placedList (mkEmummcPart (plannerHasGpt src opts))
      src.getEmummcPartitions (plannerCur3 src bytes opts)
  else []

/-- The partition list the planner produces: FAT32 first, then the
optional Linux entry, then the placed Android set, then the placed
emuMMC set. -/
theorem calculateTargetLayout_partitions (src : DiskLayout)
    (bytes : Int) (opts : MigrationOptions) :
    (calculateTargetLayout src bytes opts).partitions =
      plannerFat32Part src bytes opts ::
        (plannerLinuxSeg src bytes opts ++ plannerAndroidSeg src bytes opts
          ++ plannerEmummcSeg src bytes opts) := by
  unfold calculateTargetLayout plannerFat32Part plannerFat32Sectors
    plannerLinuxSeg plannerAndroidSeg plannerEmummcSeg plannerCur3
    plannerCur2 plannerCur1 plannerLinuxSectors plannerHasGpt
  cases hl : src.has_linux && opts.migrate_linux <;>
    cases ha : src.has_android && opts.migrate_android <;>
      cases he : src.has_emummc && opts.migrate_emummc <;>
        simp [hl, ha, he, addPartition_partitions, placeRun_partitions,
          placeRun_snd, plannerFat32Sectors]

/-- C8: with expand_fat32 set, the planned FAT32 size (in MiB) is the
target disk size minus the total size of the preserved non-FAT32
partitions minus the 16 MiB lead minus the 9 MiB tail reserve; with
expand_fat32 unset it is the source FAT32 size.  The source layout's
cached category flags and sums are assumed coherent with its partition
list (as the scanner establishes). -/
theorem C8_fat32_size (src : DiskLayout) (bytes : Int)
    (opts : MigrationOptions)
    (hLf : src.has_linux = src.partitions.any
      (fun p => p.category == "Linux"))
    (hAf : src.has_android = src.partitions.any
      (fun p => p.category == "Android"))
    (hEf : src.has_emummc = src.partitions.any
      (fun p => p.category == "emuMMC"))
    (hLs : src.linux_size_mb = ((src.partitions.filter
      (fun p => p.category == "Linux")).map Partition.size_mb).sum)
    (hAs : src.android_size_mb = ((src.partitions.filter
      (fun p => p.category == "Android")).map Partition.size_mb).sum)
    (hEs : src.emummc_size_mb = ((src.partitions.filter
      (fun p => p.category == "emuMMC")).map Partition.size_mb).sum)
    (hFs : src.fat32_size_mb = ((src.partitions.filter
      (fun p => p.category == "FAT32")).map Partition.size_mb).sum) :
    ∃ fat32 rest,
      (calculateTargetLayout src bytes opts).partitions = fat32 :: rest ∧
      fat32.category = "FAT32" ∧
      fat32.size_mb =
        (if opts.expand_fat32 then
          totalDiskMb bytes -
            (((if opts.migrate_linux then ((src.partitions.filter
                (fun p => p.category == "Linux")).map
                Partition.size_mb).sum else 0) +
              (if opts.migrate_android then ((src.partitions.filter
                (fun p => p.category == "Android")).map
                Partition.size_mb).sum else 0) +
              (if opts.migrate_emummc then ((src.partitions.filter
                (fun p => p.category == "emuMMC")).map
                Partition.size_mb).sum else 0)) + 16 + 9)
        else ((src.partitions.filter
          (fun p => p.category == "FAT32")).map Partition.size_mb).sum) := by
  refine ⟨_, _, calculateTargetLayout_partitions src bytes opts, rfl, ?_⟩
  show plannedFat32Mb src bytes opts = _
  unfold plannedFat32Mb totalReservedMb
  have hsplit : ∀ (flag mig : Bool) (cache : Int) (cat : String),
      flag = src.partitions.any (fun p => p.category == cat) →
      cache = ((src.partitions.filter (fun p => p.category == cat)).map
        Partition.size_mb).sum →
      (if flag && mig then cache else 0) =
        (if mig then ((src.partitions.filter
          (fun p => p.category == cat)).map Partition.size_mb).sum
         else 0) := by
    intro flag mig cache cat hf hc
    subst hf hc
    cases hm : mig
    · simp
    · cases hany : src.partitions.any (fun p => p.category == cat)
      · have hnil : src.partitions.filter (fun p => p.category == cat) = [] := by
          rw [List.filter_eq_nil_iff]
          intro a ha
          simpa using (List.any_eq_false.mp hany) a ha
        simp [hany, hnil]
      · simp [hany]
  rw [hsplit src.has_linux opts.migrate_linux src.linux_size_mb "Linux"
        hLf hLs,
      hsplit src.has_android opts.migrate_android src.android_size_mb
        "Android" hAf hAs,
      hsplit src.has_emummc opts.migrate_emummc src.emummc_size_mb
        "emuMMC" hEf hEs]
  cases hex : opts.expand_fat32
  · simp [hFs]
  · have h16 : ALIGN_SECTORS / 2048 = 16 := by decide
    simp only [if_true]
    rw [h16]

theorem C8_fat32_size_witness :
    ∃ fat32 rest,
      (calculateTargetLayout { partitions := [], total_sectors := 0 }
          (1073741824 : Int)
          { migrate_linux := false, migrate_android := false,
            migrate_emummc := false, expand_fat32 := true }).partitions =
        fat32 :: rest ∧
      fat32.category = "FAT32" ∧
      fat32.size_mb =
        (if true then
          totalDiskMb 1073741824 -
            ((([] : List Partition).map Partition.size_mb).sum + 16 + 9)
        else (([] : List Partition).map Partition.size_mb).sum) := by
  have h := C8_fat32_size { partitions := [], total_sectors := 0 }
    1073741824
    { migrate_linux := false, migrate_android := false,
      migrate_emummc := false, expand_fat32 := true }
    rfl rfl rfl rfl rfl rfl rfl
  simpa using h

end NXMig

namespace NXMig

/-! ## Claim C5 -/

theorem alignUp_ge (x : Int) : x ≤ alignUp x := by
  unfold alignUp ALIGN_SECTORS
  split_ifs <;> omega

theorem alignUp_emod (x : Int) : alignUp x % 32768 = 0 := by
  unfold alignUp ALIGN_SECTORS
  split_ifs <;> omega

theorem placedList_bounds (mk : Partition → Int → Partition)
    (hstart : ∀ p c, (mk p c).start_sector = c)
    (hsize : ∀ p c, (mk p c).size_sectors = p.size_sectors) :
    ∀ (ps : List Partition) (cur : Int),
      (∀ p ∈ ps, 0 ≤ p.size_sectors) →
      ∀ q ∈ placedList mk ps cur,
        cur ≤ q.start_sector ∧
          q.start_sector + q.size_sectors ≤
            cur + (ps.map Partition.size_sectors).sum := by
  intro ps
  induction ps with
  | nil => intro cur _ q hq; simp [placedList] at hq
  | cons p rest ih =>
    intro cur hsz q hq
    have hp0 : 0 ≤ p.size_sectors := hsz p (List.mem_cons_self p rest)
    have hrest : ∀ r ∈ rest, 0 ≤ r.size_sectors :=
      fun r hr => hsz r (List.mem_cons_of_mem p hr)
    have hsum : 0 ≤ (rest.map Partition.size_sectors).sum := by
      apply List.sum_nonneg
      intro x hx
      obtain ⟨r, hr, rfl⟩ := List.mem_map.mp hx
      exact hrest r hr
    simp only [placedList, List.mem_cons] at hq
    rcases hq with rfl | hq
    · rw [hstart, hsize]
      simp only [List.map_cons, List.sum_cons]
      omega
    · have := ih (cur + p.size_sectors) hrest q hq
      simp only [List.map_cons, List.sum_cons]
      omega

theorem placedList_pairwise (mk : Partition → Int → Partition)
    (hstart : ∀ p c, (mk p c).start_sector = c)
    (hsize : ∀ p c, (mk p c).size_sectors = p.size_sectors) :
    ∀ (ps : List Partition) (cur : Int),
      (∀ p ∈ ps, 0 ≤ p.size_sectors) →
      (placedList mk ps cur).Pairwise
        (fun a b => a.start_sector + a.size_sectors ≤ b.start_sector) := by
  intro ps
  induction ps with
  | nil => intro cur _; simp [placedList]
  | cons p rest ih =>
    intro cur hsz
    have hrest : ∀ r ∈ rest, 0 ≤ r.size_sectors :=
      fun r hr => hsz r (List.mem_cons_of_mem p hr)
    simp only [placedList, List.pairwise_cons]
    constructor
    · intro b hb
      have := (placedList_bounds mk hstart hsize rest
        (cur + p.size_sectors) hrest b hb).1
      rw [hstart, hsize]
      omega
    · exact ih (cur + p.size_sectors) hrest

theorem placedList_chain (mk : Partition → Int → Partition)
    (hstart : ∀ p c, (mk p c).start_sector = c)
    (hsize : ∀ p c, (mk p c).size_sectors = p.size_sectors) :
    ∀ (ps : List Partition) (cur : Int),
      List.Chain'
        (fun a b => b.start_sector = a.start_sector + a.size_sectors)
        (placedList mk ps cur) := by
  intro ps
  induction ps with
  | nil => intro cur; simp [placedList]
  | cons p rest ih =>
    intro cur
    cases rest with
    | nil => simp [placedList]
    | cons r rs =>
      simp only [placedList, List.chain'_cons]
      refine ⟨?_, ?_⟩
      · rw [hstart, hstart, hsize]
      · have := ih (cur + p.size_sectors)
        simpa [placedList] using this

theorem placedList_category (mk : Partition → Int → Partition)
    (catName : String) (hcat : ∀ p c, (mk p c).category = catName) :
    ∀ (ps : List Partition) (cur : Int),
      ∀ q ∈ placedList mk ps cur, q.category = catName := by
  intro ps
  induction ps with
  | nil => intro cur q hq; simp [placedList] at hq
  | cons p rest ih =>
    intro cur q hq
    simp only [placedList, List.mem_cons] at hq
    rcases hq with rfl | hq
    · exact hcat p cur
    · exact ih (cur + p.size_sectors) q hq

/-- Assembling the planner's four zones into a pairwise-separated list:
the FAT32 head ends before e1, the Linux zone lies in [e1,e2], the
Android zone in [e2,e3] and the emuMMC zone starts after e3. -/
theorem sep_assemble (x : Partition) (L A E : List Partition)
    (e1 e2 e3 : Int)
    (hx : x.start_sector + x.size_sectors ≤ e1)
    (hL : ∀ q ∈ L, e1 ≤ q.start_sector ∧
      q.start_sector + q.size_sectors ≤ e2)
    (hA : ∀ q ∈ A, e2 ≤ q.start_sector ∧
      q.start_sector + q.size_sectors ≤ e3)
    (hE : ∀ q ∈ E, e3 ≤ q.start_sector)
    (hLp : L.Pairwise
      (fun a b => a.start_sector + a.size_sectors ≤ b.start_sector))
    (hAp : A.Pairwise
      (fun a b => a.start_sector + a.size_sectors ≤ b.start_sector))
    (hEp : E.Pairwise
      (fun a b => a.start_sector + a.size_sectors ≤ b.start_sector))
    (h12 : e1 ≤ e2) (h23 : e2 ≤ e3) :
    (x :: (L ++ A ++ E)).Pairwise
      (fun a b => a.start_sector + a.size_sectors ≤ b.start_sector) := by
  rw [List.pairwise_cons]
  constructor
  · intro b hb
    rcases List.mem_append.mp hb with hb | hbE
    · rcases List.mem_append.mp hb with hbL | hbA
      · have := (hL b hbL).1; omega
      · have := (hA b hbA).1; omega
    · have := hE b hbE; omega
  · rw [List.pairwise_append]
    refine ⟨?_, hEp, ?_⟩
    · rw [List.pairwise_append]
      refine ⟨hLp, hAp, ?_⟩
      intro a ha b hb
      have h1 := (hL a ha).2
      have h2 := (hA b hb).1
      omega
    · intro a ha b hb
      rcases List.mem_append.mp ha with haL | haA
      · have h1 := (hL a haL).2
        have h2 := hE b hb
        omega
      · have h1 := (hA a haA).2
        have h2 := hE b hb
        omega

end NXMig

namespace NXMig

theorem plannerCur2_emod (src : DiskLayout) (bytes : Int)
    (opts : MigrationOptions) : plannerCur2 src bytes opts % 32768 = 0 := by
  unfold plannerCur2 plannerCur1
  split_ifs <;> exact alignUp_emod _

theorem plannerCur3_emod (src : DiskLayout) (bytes : Int)
    (opts : MigrationOptions) : plannerCur3 src bytes opts % 32768 = 0 := by
  unfold plannerCur3
  split_ifs
  · exact alignUp_emod _
  · exact plannerCur2_emod src bytes opts

theorem plannerAndroidSeg_category (src : DiskLayout) (bytes : Int)
    (opts : MigrationOptions) :
    ∀ q ∈ plannerAndroidSeg src bytes opts, q.category = "Android" := by
  unfold plannerAndroidSeg
  split_ifs
  · exact placedList_category mkAndroidPart "Android" (fun _ _ => rfl) _ _
  · simp

theorem plannerEmummcSeg_category (src : DiskLayout) (bytes : Int)
    (opts : MigrationOptions) :
    ∀ q ∈ plannerEmummcSeg src bytes opts, q.category = "emuMMC" := by
  unfold plannerEmummcSeg
  split_ifs
  · exact placedList_category (mkEmummcPart (plannerHasGpt src opts))
      "emuMMC" (fun _ _ => rfl) _ _
  · simp

theorem plannerLinuxSeg_shape (src : DiskLayout) (bytes : Int)
    (opts : MigrationOptions) :
    ∀ q ∈ plannerLinuxSeg src bytes opts,
      q.category = "Linux" ∧ q.start_sector = plannerCur1 src bytes opts ∧
        q.size_sectors = plannerLinuxSectors src := by
  unfold plannerLinuxSeg
  split_ifs <;> simp

/-- The Android-category records of the planner output are exactly the
Android segment (every other zone carries a different category
constant). -/
theorem planner_filter_android (src : DiskLayout) (bytes : Int)
    (opts : MigrationOptions) :
    (calculateTargetLayout src bytes opts).partitions.filter
      (fun p => p.category == "Android") =
      plannerAndroidSeg src bytes opts := by
  rw [calculateTargetLayout_partitions]
  rw [List.filter_cons, List.filter_append, List.filter_append]
  have h1 : (plannerLinuxSeg src bytes opts).filter
      (fun p => p.category == "Android") = [] := by
    rw [List.filter_eq_nil_iff]
    intro a ha
    have := (plannerLinuxSeg_shape src bytes opts a ha).1
    simp [this]
  have h2 : (plannerAndroidSeg src bytes opts).filter
      (fun p => p.category == "Android") = plannerAndroidSeg src bytes opts := by
    rw [List.filter_eq_self]
    intro a ha
    have := plannerAndroidSeg_category src bytes opts a ha
    simp [this]
  have h3 : (plannerEmummcSeg src bytes opts).filter
      (fun p => p.category == "Android") = [] := by
    rw [List.filter_eq_nil_iff]
    intro a ha
    have := plannerEmummcSeg_category src bytes opts a ha
    simp [this]
  have h4 : (((plannerFat32Part src bytes opts).category == "Android"))
      = false := by simp [plannerFat32Part]
  simp [h1, h2, h3, h4]

theorem planner_filter_emummc (src : DiskLayout) (bytes : Int)
    (opts : MigrationOptions) :
    (calculateTargetLayout src bytes opts).partitions.filter
      (fun p => p.category == "emuMMC") =
      plannerEmummcSeg src bytes opts := by
  rw [calculateTargetLayout_partitions]
  rw [List.filter_cons, List.filter_append, List.filter_append]
  have h1 : (plannerLinuxSeg src bytes opts).filter
      (fun p => p.category == "emuMMC") = [] := by
    rw [List.filter_eq_nil_iff]
    intro a ha
    have := (plannerLinuxSeg_shape src bytes opts a ha).1
    simp [this]
  have h2 : (plannerAndroidSeg src bytes opts).filter
      (fun p => p.category == "emuMMC") = [] := by
    rw [List.filter_eq_nil_iff]
    intro a ha
    have := plannerAndroidSeg_category src bytes opts a ha
    simp [this]
  have h3 : (plannerEmummcSeg src bytes opts).filter
      (fun p => p.category == "emuMMC") = plannerEmummcSeg src bytes opts := by
    rw [List.filter_eq_self]
    intro a ha
    have := plannerEmummcSeg_category src bytes opts a ha
    simp [this]
  have h4 : (((plannerFat32Part src bytes opts).category == "emuMMC"))
      = false := by simp [plannerFat32Part]
  simp [h1, h2, h3, h4]

/-- C5 (amended): the planner's output always places FAT32 first at
sector 0x8000 and, whenever every preserved size is non-negative (as on
any scanned source) and the planned FAT32 size is non-negative (the
target is big enough), its partitions are pairwise non-overlapping; the
Linux record and the FIRST record of the Android and emuMMC sets start
at multiples of 32,768; but members of the Android and emuMMC sets
after the first start exactly at the previous member's end, with no
re-alignment inside a set. -/
theorem C5_planner_geometry (src : DiskLayout) (bytes : Int)
    (opts : MigrationOptions)
    (hsz : ∀ p ∈ src.partitions, 0 ≤ p.size_sectors)
    (hlin : 0 ≤ src.linux_size_mb)
    (hfat : 0 ≤ plannedFat32Mb src bytes opts) :
    (∃ hd rest,
      (calculateTargetLayout src bytes opts).partitions = hd :: rest ∧
        hd.category = "FAT32" ∧ hd.start_sector = 0x8000) ∧
    (calculateTargetLayout src bytes opts).partitions.Pairwise
      (fun a b => a.start_sector + a.size_sectors ≤ b.start_sector) ∧
    (∀ p ∈ (calculateTargetLayout src bytes opts).partitions,
      p.category = "Linux" → p.start_sector % 32768 = 0) ∧
    (∀ a, ((calculateTargetLayout src bytes opts).partitions.filter
        (fun p => p.category == "Android")).head? = some a →
      a.start_sector % 32768 = 0) ∧
    List.Chain'
      (fun a b => b.start_sector = a.start_sector + a.size_sectors)
      ((calculateTargetLayout src bytes opts).partitions.filter
        (fun p => p.category == "Android")) ∧
    (∀ a, ((calculateTargetLayout src bytes opts).partitions.filter
        (fun p => p.category == "emuMMC")).head? = some a →
      a.start_sector % 32768 = 0) ∧
    List.Chain'
      (fun a b => b.start_sector = a.start_sector + a.size_sectors)
      ((calculateTargetLayout src bytes opts).partitions.filter
        (fun p => p.category == "emuMMC")) := by
  have hπ := calculateTargetLayout_partitions src bytes opts
  have hAsz : ∀ p ∈ src.getAndroidPartitions, 0 ≤ p.size_sectors :=
    fun p hp => hsz p (List.mem_of_mem_filter hp)
  have hEsz : ∀ p ∈ src.getEmummcPartitions, 0 ≤ p.size_sectors :=
    fun p hp => hsz p (List.mem_of_mem_filter hp)
  have hAsum : 0 ≤ ((src.getAndroidPartitions.map
      Partition.size_sectors).sum) := by
    apply List.sum_nonneg
    intro x hx
    obtain ⟨r, hr, rfl⟩ := List.mem_map.mp hx
    exact hAsz r hr
  have hlsec : 0 ≤ plannerLinuxSectors src := by
    unfold plannerLinuxSectors
    have : (0 : Int) ≤ src.linux_size_mb * 1024 * 1024 := by positivity
    omega
  have hfsec : 0 ≤ plannerFat32Sectors src bytes opts := by
    unfold plannerFat32Sectors
    have : (0 : Int) ≤ plannedFat32Mb src bytes opts * 1024 * 1024 := by
      positivity
    omega
  have h12 : plannerCur1 src bytes opts ≤ plannerCur2 src bytes opts := by
    unfold plannerCur2
    split_ifs
    · have := alignUp_ge (plannerCur1 src bytes opts +
        plannerLinuxSectors src)
      omega
    · exact le_refl _
  have h23 : plannerCur2 src bytes opts ≤ plannerCur3 src bytes opts := by
    unfold plannerCur3
    split_ifs
    · have := alignUp_ge (plannerCur2 src bytes opts +
        ((src.getAndroidPartitions.map Partition.size_sectors).sum))
      omega
    · exact le_refl _
  have hLbd : ∀ q ∈ plannerLinuxSeg src bytes opts,
      plannerCur1 src bytes opts ≤ q.start_sector ∧
        q.start_sector + q.size_sectors ≤ plannerCur2 src bytes opts := by
    unfold plannerLinuxSeg plannerCur2
    split_ifs with h
    · intro q hq
      simp only [List.mem_singleton] at hq
      subst hq
      simp only []
      have := alignUp_ge (plannerCur1 src bytes opts +
        plannerLinuxSectors src)
      constructor
      · exact le_refl _
      · exact this
    · intro q hq; simp at hq
  have hAbd : ∀ q ∈ plannerAndroidSeg src bytes opts,
      plannerCur2 src bytes opts ≤ q.start_sector ∧
        q.start_sector + q.size_sectors ≤ plannerCur3 src bytes opts := by
    unfold plannerAndroidSeg plannerCur3
    split_ifs with h
    · intro q hq
      have hb := placedList_bounds mkAndroidPart (fun _ _ => rfl)
        (fun _ _ => rfl) src.getAndroidPartitions
        (plannerCur2 src bytes opts) hAsz q hq
      have := alignUp_ge (plannerCur2 src bytes opts +
        ((src.getAndroidPartitions.map Partition.size_sectors).sum))
      exact ⟨hb.1, by omega⟩
    · intro q hq; simp at hq
  have hEbd : ∀ q ∈ plannerEmummcSeg src bytes opts,
      plannerCur3 src bytes opts ≤ q.start_sector := by
    unfold plannerEmummcSeg
    split_ifs with h
    · intro q hq
      exact (placedList_bounds (mkEmummcPart (plannerHasGpt src opts))
        (fun _ _ => rfl) (fun _ _ => rfl) src.getEmummcPartitions
        (plannerCur3 src bytes opts) hEsz q hq).1
    · intro q hq; simp at hq
  have hLp : (plannerLinuxSeg src bytes opts).Pairwise
      (fun a b => a.start_sector + a.size_sectors ≤ b.start_sector) := by
    unfold plannerLinuxSeg
    split_ifs <;> simp
  have hAp : (plannerAndroidSeg src bytes opts).Pairwise
      (fun a b => a.start_sector + a.size_sectors ≤ b.start_sector) := by
    unfold plannerAndroidSeg
    split_ifs
    · exact placedList_pairwise mkAndroidPart (fun _ _ => rfl)
        (fun _ _ => rfl) src.getAndroidPartitions _ hAsz
    · simp
  have hEp : (plannerEmummcSeg src bytes opts).Pairwise
      (fun a b => a.start_sector + a.size_sectors ≤ b.start_sector) := by
    unfold plannerEmummcSeg
    split_ifs
    · exact placedList_pairwise (mkEmummcPart (plannerHasGpt src opts))
        (fun _ _ => rfl) (fun _ _ => rfl) src.getEmummcPartitions _ hEsz
    · simp
  have hx : (plannerFat32Part src bytes opts).start_sector +
      (plannerFat32Part src bytes opts).size_sectors ≤
        plannerCur1 src bytes opts := by
    have := alignUp_ge (ALIGN_SECTORS + plannerFat32Sectors src bytes opts)
    show ALIGN_SECTORS + plannerFat32Sectors src bytes opts ≤ _
    exact this
  refine ⟨⟨plannerFat32Part src bytes opts, _, hπ, rfl, rfl⟩, ?_, ?_, ?_,
    ?_, ?_, ?_⟩
  · rw [hπ]
    exact sep_assemble _ _ _ _ (plannerCur1 src bytes opts)
      (plannerCur2 src bytes opts) (plannerCur3 src bytes opts)
      hx hLbd hAbd hEbd hLp hAp hEp h12 h23
  · rw [hπ]
    intro p hp hcat
    rcases List.mem_cons.mp hp with rfl | hp
    · simp [plannerFat32Part] at hcat
    rcases List.mem_append.mp hp with hp | hpE
    · rcases List.mem_append.mp hp with hpL | hpA
      · have hs := plannerLinuxSeg_shape src bytes opts p hpL
        rw [hs.2.1]
        unfold plannerCur1
        exact alignUp_emod _
      · have := plannerAndroidSeg_category src bytes opts p hpA
        rw [this] at hcat
        simp at hcat
    · have := plannerEmummcSeg_category src bytes opts p hpE
      rw [this] at hcat
      simp at hcat
  · intro a ha
    rw [planner_filter_android] at ha
    unfold plannerAndroidSeg at ha
    split_ifs at ha with h
    · cases haps : src.getAndroidPartitions with
      | nil => rw [haps] at ha; simp [placedList] at ha
      | cons p rest =>
        rw [haps] at ha
        simp only [placedList, List.head?_cons, Option.some_inj] at ha
        subst ha
        show plannerCur2 src bytes opts % 32768 = 0
        exact plannerCur2_emod src bytes opts
    · simp at ha
  · rw [planner_filter_android]
    unfold plannerAndroidSeg
    split_ifs
    · exact placedList_chain mkAndroidPart (fun _ _ => rfl)
        (fun _ _ => rfl) src.getAndroidPartitions _
    · simp
  · intro a ha
    rw [planner_filter_emummc] at ha
    unfold plannerEmummcSeg at ha
    split_ifs at ha with h
    · cases haps : src.getEmummcPartitions with
      | nil => rw [haps] at ha; simp [placedList] at ha
      | cons p rest =>
        rw [haps] at ha
        simp only [placedList, List.head?_cons, Option.some_inj] at ha
        subst ha
        show plannerCur3 src bytes opts % 32768 = 0
        exact plannerCur3_emod src bytes opts
    · simp at ha
  · rw [planner_filter_emummc]
    unfold plannerEmummcSeg
    split_ifs
    · exact placedList_chain (mkEmummcPart (plannerHasGpt src opts))
        (fun _ _ => rfl) (fun _ _ => rfl) src.getEmummcPartitions _
    · simp

end NXMig

namespace NXMig

/-- Source layout with two Android partitions of one sector each. -/
def srcTwoAndroid : DiskLayout :=
  { partitions :=
      [ { name := "vendor", type_id := 0, type_name := "Android",
          start_sector := 65536, size_sectors := 1, size_mb := 0,
          category := "Android", in_mbr := false, in_gpt := true },
        { name := "super", type_id := 0, type_name := "Android",
          start_sector := 65537, size_sectors := 1, size_mb := 0,
          category := "Android", in_mbr := false, in_gpt := true } ],
    total_sectors := 1000000, has_gpt := true, has_android := true,
    fat32_size_mb := 16, android_size_mb := 0 }

def optsAndroidOnly : MigrationOptions :=
  { migrate_linux := false, migrate_android := true,
    migrate_emummc := false, expand_fat32 := false }

/-- C5 counterexample: migrating a source whose Android set holds two
one-sector partitions, the second Android partition is placed at the
first one's end (65537), which is not a multiple of 32,768 — the planner
only realigns between sets, not between members of a set, so the claim
that every partition in the output starts at a multiple of 32,768 sectors
fails. -/
theorem C5_counterexample :
    ¬ (∀ p ∈ (calculateTargetLayout srcTwoAndroid 1073741824
        optsAndroidOnly).partitions, p.start_sector % 32768 = 0) := by
  decide

theorem C5_planner_geometry_witness :
    (∀ p ∈ srcTwoAndroid.partitions, 0 ≤ p.size_sectors) ∧
    (0 ≤ srcTwoAndroid.linux_size_mb) ∧
    (0 ≤ plannedFat32Mb srcTwoAndroid 1073741824 optsAndroidOnly) ∧
    (∃ hd rest,
      (calculateTargetLayout srcTwoAndroid 1073741824
          optsAndroidOnly).partitions = hd :: rest ∧
        hd.category = "FAT32" ∧ hd.start_sector = 0x8000) :=
  ⟨by decide, by decide, by decide,
    (C5_planner_geometry srcTwoAndroid 1073741824 optsAndroidOnly
      (by decide) (by decide) (by decide)).1⟩

end NXMig

namespace NXMig

/-! ## Claim C1 -/

set_option maxRecDepth 10000 in
/-- Extracting bytes 88..92 (the partition-entries CRC field) of a
generated GPT header yields the little-endian CRC32 of whatever byte
string was passed as entries_data. -/
theorem createGptHeader_entries_crc (myLba altLba peLba : Int)
    (guid : Bytes) (k : Nat) (entriesData : Bytes) (total : Int)
    (hg : guid.length = 16) :
    getSlice (createGptHeader myLba altLba peLba guid k entriesData total)
      88 4 = le32 (crc32 entriesData) := by
  unfold createGptHeader getSlice setSlice
  set pre : Bytes :=
    [0x45, 0x46, 0x49, 0x20, 0x50, 0x41, 0x52, 0x54] ++
    le32 0x00010000 ++ le32 92 ++ le32 0 ++ le32 0 ++
    le64i myLba ++ le64i altLba ++ le64 34 ++ le64i (total - 34) ++
    guid ++ le64i peLba ++ le32 k ++ le32 128 ++
    le32 (crc32 entriesData) ++ List.replicate 420 0 with hpre
  set w : Bytes := le32 (crc32 ((pre.drop 0).take 92)) with hw
  have hwlen : w.length = 4 := by rw [hw]; exact le32_length _
  have htake16 : (pre.take 16).length = 16 := by
    rw [List.length_take]
    simp [hpre, hg]
  have hA : ∃ A B : Bytes, pre = A ++ (le32 (crc32 entriesData) ++
      List.replicate 420 0) ∧ A.length = 88 := by
    refine ⟨[0x45, 0x46, 0x49, 0x20, 0x50, 0x41, 0x52, 0x54] ++
      le32 0x00010000 ++ le32 92 ++ le32 0 ++ le32 0 ++
      le64i myLba ++ le64i altLba ++ le64 34 ++ le64i (total - 34) ++
      guid ++ le64i peLba ++ le32 k ++ le32 128, [], ?_, ?_⟩
    · rw [hpre]; simp
    · simp [hg]
  obtain ⟨A, _, hpreAB, hAlen⟩ := hA
  have hdrop : (pre.take 16 ++ w ++ pre.drop (16 + w.length)).drop 88 =
      pre.drop 88 := by
    rw [List.append_assoc, List.drop_append_eq_append_drop, htake16]
    rw [List.drop_eq_nil_of_le (by omega : (pre.take 16).length ≤ 88)]
    rw [List.nil_append, List.drop_append_eq_append_drop, hwlen]
    rw [List.drop_eq_nil_of_le (by omega : w.length ≤ 88 - 16)]
    rw [List.nil_append, List.drop_drop]
  rw [hdrop, hpreAB, List.drop_append_eq_append_drop, hAlen]
  rw [List.drop_eq_nil_of_le (le_of_eq hAlen), List.nil_append]
  rw [show (88 - 88 : Nat) = 0 from rfl, List.drop_zero]
  exact List.take_left' (le32_length _)

/-- C1 (amended): in both the primary and the backup GPT header the
entries_crc32 field is the CRC32 of only the used prefix of the entry
region — the first num_entries × 128 bytes (num_entries = number of
entries written) — not of the full 16 KiB region. -/
theorem C1_entries_crc (layout : DiskLayout) (rand : Nat → Bytes)
    (r10 : Bytes) (hr10 : r10.length = 10) :
    getSlice (createGpt layout rand r10).mainHeader 88 4 =
      le32 (crc32 ((createGpt layout rand r10).entries.take
        (((layout.partitions.filter (fun p => p.in_gpt)).take 128).length
          * 128))) ∧
    getSlice (createGpt layout rand r10).backupHeader 88 4 =
      le32 (crc32 ((createGpt layout rand r10).entries.take
        (((layout.partitions.filter (fun p => p.in_gpt)).take 128).length
          * 128))) := by
  have hg : (r10 ++ NYXGPT).length = 16 := by simp [NYXGPT, hr10]
  constructor
  · exact createGptHeader_entries_crc _ _ _ _ _ _ _ hg
  · exact createGptHeader_entries_crc _ _ _ _ _ _ _ hg

theorem C1_entries_crc_witness :
    zeroBytes10.length = 10 ∧
      getSlice (createGpt gptLayout0 zeroRand16 zeroBytes10).mainHeader
        88 4 =
      le32 (crc32 ((createGpt gptLayout0 zeroRand16 zeroBytes10).entries.take
        (((gptLayout0.partitions.filter (fun p => p.in_gpt)).take
          128).length * 128))) :=
  ⟨rfl, (C1_entries_crc gptLayout0 zeroRand16 zeroBytes10 rfl).1⟩

/-- C1 counterexample: for a GPT layout with no in-GPT partitions the
written entries_crc32 is CRC32 of the empty prefix (0x00000000), while
the CRC32 over the full 16 KiB all-zero region is 0xAB54D286 — so the
header field is not the CRC over the full region including the zero
bytes beyond num_entries. -/
theorem C1_counterexample :
    getSlice (createGpt gptLayout0 zeroRand16 zeroBytes10).mainHeader
        88 4 ≠
      le32 (crc32 (createGpt gptLayout0 zeroRand16 zeroBytes10).entries) := by
  have hmain := (C1_entries_crc gptLayout0 zeroRand16 zeroBytes10 rfl).1
  have hentries :
      (createGpt gptLayout0 zeroRand16 zeroBytes10).entries =
        List.replicate 16384 0 := rfl
  rw [hmain, hentries]
  rw [show (((gptLayout0.partitions.filter (fun p => p.in_gpt)).take
      128).length * 128) = 0 from rfl]
  rw [List.take_zero, crc32_replicate_16384]
  rw [show crc32 [] = 0 from rfl]
  decide

end NXMig
